import Mathlib

/-!
Verification of the ThreadPool library (ThreadPool.hpp) through a shallow
embedding of its components into Lean: the task envelope built around
std::packaged_task, the mutex-and-condition-variable guarded FIFO task
queue, the worker loop, the constructor and the destructor.

Task envelopes are type-erased unique pointers in the C++ source; queue
claims are therefore stated over an abstract element type, while the
execution claims keep the result type R of details::Task<R>.
-/

/-- A C++ exception value as seen by the pool: either an object derived
from std::exception (carrying its what() message) or a foreign thrown
value such as a plain int, which the worker loop's catch clause for
std::exception would not match. -/
inductive CppExc where
  | stdExc (msg : String)
  | otherExc (payload : Nat)
deriving DecidableEq, Repr

/-- The shared state behind the std::future / std::packaged_task pair of one
task envelope: empty until the task has run, afterwards it holds either the
returned value or the exception the user callable raised. -/
structure SharedState (R : Type) where
  outcome : Option (Except CppExc R)

/-- Outcome of one call of std::packaged_task<R()>::operator(): the shared
state after the call, and the exception, if any, that propagates out of
operator() itself into the caller (the worker thread). -/
structure RunResult (R : Type) where
  state : SharedState R
  escaped : Option CppExc

/-- std::packaged_task<R()>::operator() on a valid, not yet invoked task:
it invokes the stored closure and stores the returned value, or any
exception the closure raises, in the shared state; the stored exception
does not propagate out of operator() (C++ standard, futures.task.members).
The closure is modelled as a function producing either a value or a raised
exception. -/
def packagedRun {R : Type} (closure : Unit → Except CppExc R) : RunResult R :=
  match closure () with
  | .ok v => ⟨⟨some (.ok v)⟩, none⟩
  | .error e => ⟨⟨some (.error e)⟩, none⟩

/-- details::Task<R>::run_me, line 51-54: invokes m_task, the packaged task. -/
def run_me {R : Type} (closure : Unit → Except CppExc R) : RunResult R :=
  packagedRun closure

/-- The closure stored inside details::Task<R> by its constructor,
lines 30-39: it captures the callable f and a by-value snapshot of the
arguments (args = std::tuple(arguments...)), and applies f to that stored
snapshot when invoked. The whole argument tuple is modelled as one value
of type alpha. -/
def make_task {α R : Type} (f : α → Except CppExc R) (args : α) :
    Unit → Except CppExc R :=
  fun _ => f args

/-- A submission site where the argument expression reads a caller-side
mutable variable: store gives the variable's value at each instant, and
make_task is handed the value the variable holds at the instant of
submission, not a reference to be read later. -/
def submitAt {R : Type} (f : Nat → Except CppExc R) (store : Nat → Nat)
    (tSubmit : Nat) : Unit → Except CppExc R :=
  make_task f (store tSubmit)

/-- std::future<R>::get on the shared state: once the task has run it
yields the stored outcome, re-raising a stored exception to the caller. -/
def futureGet {R : Type} (s : SharedState R) : Option (Except CppExc R) :=
  s.outcome

/-- What one pass of the worker loop body, lines 131-138, leaves behind
after running one task: the task's shared state, the diagnostic message
printed by the catch clause for std::exception if it fired, and whether
the worker thread survives (an exception not matching any catch clause
would terminate it). -/
structure WorkerObs (R : Type) where
  state : SharedState R
  diagnostic : Option String
  threadAlive : Bool

/-- The worker loop body around one dequeued task, lines 131-138:
task.value()->run_me() inside try, with catch (std::exception e) printing
exc.what(); an escaped exception not derived from std::exception is not
caught and kills the thread. -/
def workerRunTask {R : Type} (closure : Unit → Except CppExc R) : WorkerObs R :=
  let r := run_me closure
  match r.escaped with
  | none => ⟨r.state, none, true⟩
  | some (CppExc.stdExc m) => ⟨r.state, some m, true⟩
  | some (CppExc.otherExc _) => ⟨r.state, none, false⟩

/-- A concrete user callable that raises a std::exception-derived failure. -/
def boomTask : Unit → Except CppExc Nat :=
  fun _ => .error (.stdExc "boom")

/-- ThreadPool::add_task, lines 159-165: under the mutex, push the envelope
at the back of m_queue (and notify one waiting worker). -/
def add_task {τ : Type} (q : List τ) (t : τ) : List τ :=
  q ++ [t]

/-- ThreadPool::try_pop, lines 143-157, at the instant the condition
variable wait has returned (so m_done is set or the queue is non-empty):
if m_done is set, return nullopt leaving the queue untouched; otherwise
remove and return the front envelope. The (false, []) branch is the state
in which the real code still blocks; it is unreachable through the wait
predicate m_done or not empty. -/
def try_pop {τ : Type} (done : Bool) (q : List τ) : Option τ × List τ :=
  match done, q with
  | true, q => (none, q)
  | false, [] => (none, [])
  | false, t :: ts => (some t, ts)

/-- ThreadPool::wait_for_work, lines 127-141, for a single worker with no
concurrent producer: k counts how many times the while guard still reads
m_done as false before shutdown; each such iteration pops and runs the
front task, or, if the queue is empty, blocks inside try_pop until
shutdown flips m_done and then exits. Returns the list of tasks the
worker executed and the tasks left in the queue when it exits. -/
def wait_for_work {τ : Type} : Nat → List τ → List τ × List τ
  | 0, q => ([], q)
  | Nat.succ k, q =>
    match try_pop false q with
    | (some t, q2) =>
      let r := wait_for_work k q2
      (t :: r.1, r.2)
    | (none, q2) => ([], q2)

/-- One operation on the task queue: a producer pushing an envelope, or a
worker popping (while the pool is running, so m_done is false). -/
inductive QOp (τ : Type) where
  | push (t : τ)
  | pop
deriving DecidableEq, Repr

/-- History of the task queue: its current content, every envelope ever
pushed in order, and every envelope extracted by pop in order. -/
structure QTrace (τ : Type) where
  queue : List τ
  pushed : List τ
  extracted : List τ
deriving DecidableEq, Repr

/-- The queue of a freshly constructed pool: empty, nothing pushed or
extracted yet. -/
def qInit {τ : Type} : QTrace τ :=
  ⟨[], [], []⟩

/-- Effect of one queue operation on the history: push appends through
add_task, pop runs try_pop with m_done false and records an extracted
envelope when try_pop yields one. -/
def qStep {τ : Type} (s : QTrace τ) : QOp τ → QTrace τ
  | .push t => ⟨add_task s.queue t, s.pushed ++ [t], s.extracted⟩
  | .pop =>
    match try_pop false s.queue with
    | (some t, q2) => ⟨q2, s.pushed, s.extracted ++ [t]⟩
    | (none, q2) => ⟨q2, s.pushed, s.extracted⟩

/-- Run a sequence of queue operations from the empty queue. -/
def qRun {τ : Type} (ops : List (QOp τ)) : QTrace τ :=
  ops.foldl qStep qInit

/-- The two error classes ThreadPool throws, lines 176-180. -/
inductive TPError where
  | constructorFailed
  | addingTaskFailed
deriving DecidableEq, Repr

/-- Where a submission can throw inside ThreadPool::submit, lines 98-111:
details::make_task allocating the envelope, get_future, or the queue
push_back inside add_task (std::list gives push_back the strong exception
guarantee, so a throwing push leaves the list unchanged). -/
inductive SubmitFailPoint where
  | makeTaskThrows
  | getFutureThrows
  | enqueueThrows
deriving DecidableEq, Repr

/-- ThreadPool::submit, lines 98-111, with an injected failure point:
every throw is caught by catch (...) and rethrown as
ThreadPoolException(adding_task_failed); the first two failure points
occur before add_task touches the queue, and a throwing push_back leaves
the std::list based queue unchanged, so on every failure the queue is
returned as it was. On success the envelope is appended and the future
handle (here a unit token, its typed content is covered by the envelope
model above) is returned. -/
def submit {τ : Type} (fail : Option SubmitFailPoint) (q : List τ) (t : τ) :
    Except TPError Unit × List τ :=
  match fail with
  | some .makeTaskThrows => (.error .addingTaskFailed, q)
  | some .getFutureThrows => (.error .addingTaskFailed, q)
  | some .enqueueThrows => (.error .addingTaskFailed, q)
  | none => (.ok (), add_task q t)

/-- How a run of the ThreadPool constructor, lines 85-96, can end. -/
inductive CtorOutcome where
  | ok (threadsSpawned : Nat)
  | threwPoolConstructionFailed
  | terminateCalled (joinableThreads : Nat)
deriving DecidableEq, Repr

/-- ThreadPool::ThreadPool(num_threads), lines 85-96, with an injected
failure index failAt (the loop index whose std::thread construction or
push_back throws; none means no failure): on a throw after k threads were
already created, catch (...) rethrows ThreadPoolException; stack
unwinding then destroys the member m_threads, and std::thread's
destructor on a joinable thread calls std::terminate (C++ standard,
thread.thread.destr) — the constructor never joins the k threads.
Only when k = 0 is m_threads empty, so the ThreadPoolException
propagates cleanly. -/
def threadPoolCtor (numThreads : Nat) (failAt : Option Nat) : CtorOutcome :=
  match failAt with
  | none => .ok numThreads
  | some k =>
    if k < numThreads then
      if k = 0 then .threwPoolConstructionFailed
      else .terminateCalled k
    else .ok numThreads

/-- The pool state the claims about m_done concern: the flag and the
queue content. m_done is initialized false in the constructor's
initializer list, line 85. -/
structure PoolState where
  done : Bool
  queue : List Nat
deriving DecidableEq, Repr

/-- The operations of the pool that touch its state after construction:
a submission (with an optional injected failure), a worker's pop attempt,
and destroy. Only destroy writes m_done, line 169, and it writes true. -/
inductive PoolOp where
  | submitOp (t : Nat) (fail : Option SubmitFailPoint)
  | popAttempt
  | destroyOp
deriving DecidableEq, Repr

/-- The state a freshly constructed pool starts in: m_done false, empty
queue. -/
def poolInit : PoolState :=
  ⟨false, []⟩

/-- Effect of each pool operation on (m_done, m_queue): submit appends
through the submit model, a pop attempt runs try_pop under the current
flag, destroy sets m_done to true. No operation ever writes false. -/
def poolStep (s : PoolState) : PoolOp → PoolState
  | .submitOp t fail => ⟨s.done, (submit fail s.queue t).2⟩
  | .popAttempt => ⟨s.done, (try_pop s.done s.queue).2⟩
  | .destroyOp => ⟨true, s.queue⟩

/-- Run a sequence of pool operations from the fresh pool state. -/
def poolRun (ops : List PoolOp) : PoolState :=
  ops.foldl poolStep poolInit

/-- Observable synchronization events of the pool: setting m_done, the
condition variable broadcast of destroy, the single notify of add_task,
and joining one worker thread (which returns only once that worker has
terminated). -/
inductive PoolEvent where
  | setDone
  | notifyAll
  | notifyOne
  | joinThread (i : Nat)
deriving DecidableEq, Repr

/-- One entry of m_threads. In the destructor every spawned thread is
still joinable: the class never detaches and never joins earlier. -/
structure WorkerThread where
  id : Nat
  joinable : Bool
deriving DecidableEq, Repr

/-- ThreadPool::destroy, lines 167-174, as its ordered event trace:
m_done = true, then m_condition.notify_all(), then a join of each
joinable thread of m_threads in order. -/
def destroy (threads : List WorkerThread) : List PoolEvent :=
  [.setDone, .notifyAll]
    ++ threads.filterMap fun t =>
      if t.joinable then some (.joinThread t.id) else none

/-- m_threads as a successful constructor run leaves it: numThreads
spawned worker threads, all joinable. -/
def spawnedThreads (n : Nat) : List WorkerThread :=
  (List.range n).map fun i => ⟨i, true⟩

/-- A queue consumption schedule: which worker performs each successive
pop attempt (while the pool is running). A schedule is only realizable
by a pool whose spawned worker indices include every entry; executions
happen nowhere but in workers' wait_for_work loops. Returns the tasks
executed and the queue that remains. -/
def runSchedule {τ : Type} : List Nat → List τ → List τ × List τ
  | [], q => ([], q)
  | _w :: rest, q =>
    match try_pop false q with
    | (some t, q2) =>
      let r := runSchedule rest q2
      (t :: r.1, r.2)
    | (none, q2) =>
      let r := runSchedule rest q2
      (r.1, r.2)

/-- Claim C2: submit(f, args...) returns a result handle of the callable's
return type R, and the value later delivered through that handle when a
worker runs the envelope equals f applied to the snapshot of the
arguments taken by value at submission time: for an argument read from a
caller-side variable, the outcome is f of the value at the submission
instant tSubmit, whatever instant tExec the worker later runs at and
whatever the variable holds then. -/
theorem c2_submit_snapshot (R : Type) (f : Nat → R) (store : Nat → Nat)
    (tSubmit _tExec : Nat) :
    futureGet (run_me (submitAt (fun a => .ok (f a)) store tSubmit)).state
      = some (.ok (f (store tSubmit))) := by
  rfl

/-- Claim C9: every failure a user callable raises during execution, of
any kind — derived from std::exception or not — is captured into the
task's shared state by the packaged task and handed to the caller at
future.get; nothing propagates out of run_me into the worker thread, and
the worker always survives running a task. -/
theorem c9_all_failures_captured (R : Type) (closure : Unit → Except CppExc R) :
    (run_me closure).escaped = none
    ∧ futureGet (workerRunTask closure).state = some (closure ())
    ∧ (workerRunTask closure).threadAlive = true := by
  refine ⟨?_, ?_, ?_⟩ <;>
    simp only [run_me, workerRunTask, packagedRun, futureGet] <;>
    cases h : closure () <;> simp [h]

/-- Claim C3 counterexample: for the concrete task boomTask, whose
callable raises a std::exception-derived failure with message boom, the
worker loop prints no diagnostic at all — the packaged task stores the
exception in the shared state, so nothing reaches the catch clause in
wait_for_work — contradicting the claim that a diagnostic containing the
failure's message is serialized. -/
theorem c3_diagnostic_counterexample :
    (workerRunTask boomTask).diagnostic = none
    ∧ (workerRunTask boomTask).threadAlive = true := by
  exact ⟨rfl, rfl⟩

/-- Claim C3 as amended: when a user callable raises any failure e, the
packaged task captures e into the task's shared state, from which the
result handle re-raises it to the submitter at retrieval; the failure
never reaches the worker loop's catch clause, so no diagnostic is
serialized, and the worker thread and the pool keep running. -/
theorem c3_failure_to_handle_amended (R : Type) (e : CppExc) :
    (workerRunTask (fun _ : Unit => (.error e : Except CppExc R))).diagnostic = none
    ∧ (workerRunTask (fun _ : Unit => (.error e : Except CppExc R))).threadAlive = true
    ∧ futureGet (workerRunTask (fun _ : Unit => (.error e : Except CppExc R))).state
        = some (.error e) := by
  exact ⟨rfl, rfl, rfl⟩

/-- Claim C5: once the condition wait of try_pop has returned, if m_done
is set try_pop yields no task and leaves the queue untouched, even when
envelopes remain queued; a worker whose while guard already sees m_done
set executes nothing, so every task still queued at shutdown is dropped
un-executed; and when m_done is clear try_pop removes and returns the
head envelope. -/
theorem c5_try_pop_shutdown (τ : Type) :
    (∀ q : List τ, try_pop true q = (none, q))
    ∧ (∀ q : List τ, wait_for_work 0 q = ([], q))
    ∧ (∀ (t : τ) (ts : List τ), try_pop false (t :: ts) = (some t, ts)) := by
  refine ⟨fun q => rfl, fun q => rfl, fun t ts => rfl⟩

/-- Claim C6: when any of the three possible throw sites of submit fires
— envelope construction, taking the future, or the queue push — submit
fails with the task-submission-failed error and the queue is exactly as
it was before the call; and the pool stays usable: a subsequent
non-failing submit on that same queue succeeds and appends its
envelope. -/
theorem c6_submit_failure_atomic (τ : Type) (q : List τ) (t t2 : τ)
    (e : SubmitFailPoint) :
    submit (some e) q t = (.error .addingTaskFailed, q)
    ∧ submit none ((submit (some e) q t).2) t2 = (.ok (), q ++ [t2]) := by
  cases e <;> exact ⟨rfl, rfl⟩

/-- Claim C4 (code bug): evaluating the constructor model. With no
failure the constructor spawns exactly num_threads workers; but when
thread creation throws after one thread of a requested two was already
created, unwinding destroys m_threads while that thread is still
joinable, so std::terminate is called — the already-created worker is
not joined and construction does not end in a clean
PoolConstructionFailed exception. -/
theorem c4_ctor_partial_failure_bug :
    threadPoolCtor 2 none = .ok 2
    ∧ threadPoolCtor 2 (some 1) = .terminateCalled 1
    ∧ threadPoolCtor 2 (some 0) = .threwPoolConstructionFailed := by
  exact ⟨rfl, by decide, rfl⟩

/-- Helper: a filterMap whose function always yields some is a map. -/
theorem filterMap_all_some {α β : Type} (f : α → β) (l : List α) :
    List.filterMap (fun x => some (f x)) l = List.map f l := by
  induction l with
  | nil => rfl
  | cons a l ih => simp [List.filterMap_cons, ih]

/-- Claim C8: destroy performs, in order, exactly: set the shutdown
flag, one broadcast notify_all (never the single-waiter notify_one),
then a join of every one of the n spawned worker threads; each join
event stands for a join() call that returns only after that worker has
stopped, so no thread outlives the destructor. -/
theorem c8_destroy_protocol (n : Nat) :
    destroy (spawnedThreads n)
      = PoolEvent.setDone :: PoolEvent.notifyAll
          :: (List.range n).map PoolEvent.joinThread
    ∧ PoolEvent.notifyOne ∉ destroy (spawnedThreads n) := by
  constructor
  · simp [destroy, spawnedThreads, List.filterMap_map, Function.comp_def,
      filterMap_all_some]
  · simp [destroy, spawnedThreads, List.filterMap_map, Function.comp_def]

/-- Helper: one queue operation preserves the history invariant that the
pushed sequence is the extracted sequence followed by the current queue. -/
theorem qStep_preserves (τ : Type) (s : QTrace τ) (op : QOp τ)
    (h : s.pushed = s.extracted ++ s.queue) :
    (qStep s op).pushed = (qStep s op).extracted ++ (qStep s op).queue := by
  cases op with
  | push t =>
    simp [qStep, add_task, h]
  | pop =>
    cases hq : s.queue with
    | nil =>
      rw [hq] at h
      simp [qStep, try_pop, hq]
      simpa using h
    | cons t ts =>
      rw [hq] at h
      simp [qStep, try_pop, hq, h]

/-- Helper: the history invariant holds after any run of queue
operations from an invariant-satisfying start state. -/
theorem qRun_fold_inv (τ : Type) (ops : List (QOp τ)) (s : QTrace τ)
    (h : s.pushed = s.extracted ++ s.queue) :
    (ops.foldl qStep s).pushed
      = (ops.foldl qStep s).extracted ++ (ops.foldl qStep s).queue := by
  induction ops generalizing s with
  | nil => simpa using h
  | cons op rest ih => simpa using ih (qStep s op) (qStep_preserves τ s op h)

/-- Claim C1: along every interleaving of pushes and pops starting from
the empty queue, the pushed sequence equals the extracted sequence
followed by the remaining queue — so envelopes are extracted in exactly
their insertion order; if the pushed envelopes are pairwise distinct no
envelope is ever extracted twice; and each successful try_pop shortens
the queue by exactly one. -/
theorem c1_queue_fifo (ops : List (QOp Nat))
    (hnd : (qRun ops).pushed.Nodup) :
    (qRun ops).pushed = (qRun ops).extracted ++ (qRun ops).queue
    ∧ (qRun ops).extracted.Nodup
    ∧ ∀ (q q2 : List Nat) (t : Nat),
        try_pop false q = (some t, q2) → q2.length + 1 = q.length := by
  have hinv : (qRun ops).pushed = (qRun ops).extracted ++ (qRun ops).queue :=
    qRun_fold_inv Nat ops qInit (by simp [qInit])
  refine ⟨hinv, ?_, ?_⟩
  · rw [hinv] at hnd
    exact (List.nodup_append.mp hnd).1
  · intro q q2 t hpop
    cases q with
    | nil => simp [try_pop] at hpop
    | cons a as =>
      simp [try_pop] at hpop
      rw [← hpop.2]
      simp

/-- Witness for claim C1 at a concrete interleaving of three pushes and
two pops of distinct envelopes. -/
theorem c1_queue_fifo_witness :
    (qRun [QOp.push 1, QOp.push 2, QOp.pop, QOp.push 3, QOp.pop]).pushed.Nodup
    ∧ ((qRun [QOp.push 1, QOp.push 2, QOp.pop, QOp.push 3, QOp.pop]).pushed
        = (qRun [QOp.push 1, QOp.push 2, QOp.pop, QOp.push 3, QOp.pop]).extracted
          ++ (qRun [QOp.push 1, QOp.push 2, QOp.pop, QOp.push 3, QOp.pop]).queue
      ∧ (qRun [QOp.push 1, QOp.push 2, QOp.pop, QOp.push 3, QOp.pop]).extracted.Nodup
      ∧ ∀ (q q2 : List Nat) (t : Nat),
          try_pop false q = (some t, q2) → q2.length + 1 = q.length) :=
  ⟨by decide, c1_queue_fifo [QOp.push 1, QOp.push 2, QOp.pop, QOp.push 3, QOp.pop]
    (by decide)⟩

/-- Claim C7: m_done is initialized false at construction, and it never
reverts: every pool operation applied with the flag already set leaves
it set, and once the destroy operation has occurred in a trace the flag
reads true after every continuation of that trace. -/
theorem c7_done_monotone :
    poolInit.done = false
    ∧ (∀ (q : List Nat) (op : PoolOp), (poolStep ⟨true, q⟩ op).done = true)
    ∧ ∀ (ops extra : List PoolOp),
        (poolRun (ops ++ PoolOp.destroyOp :: extra)).done = true := by
  have hkeep : ∀ (l : List PoolOp) (q : List Nat),
      (l.foldl poolStep ⟨true, q⟩).done = true := by
    intro l
    induction l with
    | nil => intro q; rfl
    | cons op rest ih => intro q; cases op <;> exact ih _
  refine ⟨rfl, ?_, ?_⟩
  · intro q op; cases op <;> rfl
  · intro ops extra
    rw [poolRun, List.foldl_append]
    exact hkeep extra (ops.foldl poolStep poolInit).queue

/-- Claim C10: construction with thread_count zero succeeds and spawns
no worker; submit on such a pool still succeeds, returning the handle
and appending the envelope to the queue; every pop is performed by some
spawned worker, and a zero-worker pool admits only the empty schedule,
under which no queued task is ever executed; and destroy performs no
join at all, so destruction returns without blocking. -/
theorem c10_zero_thread_pool (q : List Nat) (t : Nat) (sched : List Nat)
    (hvalid : ∀ w ∈ sched, w < 0) :
    threadPoolCtor 0 none = .ok 0
    ∧ submit none q t = (.ok (), q ++ [t])
    ∧ (runSchedule sched (q ++ [t])).1 = []
    ∧ destroy (spawnedThreads 0) = [PoolEvent.setDone, PoolEvent.notifyAll] := by
  have hnil : sched = [] := by
    cases sched with
    | nil => rfl
    | cons w rest => exact absurd (hvalid w (by simp)) (Nat.not_lt_zero w)
  subst hnil
  exact ⟨rfl, rfl, rfl, rfl⟩

/-- Witness for claim C10 at a concrete queue, envelope and the empty
schedule. -/
theorem c10_zero_thread_pool_witness :
    (∀ w ∈ ([] : List Nat), w < 0)
    ∧ (threadPoolCtor 0 none = .ok 0
      ∧ submit none [5] 7 = (.ok (), [5] ++ [7])
      ∧ (runSchedule ([] : List Nat) ([5] ++ [7])).1 = []
      ∧ destroy (spawnedThreads 0) = [PoolEvent.setDone, PoolEvent.notifyAll]) :=
  ⟨by simp, c10_zero_thread_pool [5] 7 [] (by simp)⟩
